import Mathlib

/-!
Shallow embedding of the agent trust and airdrop-eligibility engine of
`src/verifier.py` (class `MCPVerifier` and its module-level constants).

Modelling conventions:
- Machine time (`datetime.now()`, ISO timestamps) is modelled as a `Nat`
  number of seconds, passed explicitly to every operation that reads the
  clock; `timedelta(hours = h)` becomes `hoursToSeconds h`.  Python's signed
  timestamp difference compared against a positive bound gives the same
  boolean as Nat truncated subtraction, so `Nat` is faithful here.
- Network oracles (`_check_stx_balance`, `_verify_github_mcp`,
  `_verify_mcp_endpoint`, `_verify_bns_ownership`) perform HTTP I/O.  Each
  is embedded as a pure function of the raw outcome the network produced
  (`none` = exception / connection failure, `some x` = a response), and
  `verify_agent` takes those outcomes as extra arguments.  The decision
  logic applied to the outcome is translated from the source; outcomes whose
  internal logic no claim touches (`_verify_github_mcp`'s file scanning) are
  passed as the resulting boolean.
- `self.verified_agents : Dict[str, AgentRecord]` becomes a total function
  `String → Option AgentRecord`.
- The `metadata` dict of `AgentRecord` (untyped, never read or written by
  the engine) and the `api_url` field (only spliced into request URLs) are
  omitted.
- The reason string of the insufficient-balance failure interpolates a
  float in the source (`min_stx_balance / 1_000_000`); it is modelled as a
  fixed marker string since no property depends on its text.
-/

/-- `TrustLevel` enum of `verifier.py` (progressive trust levels). -/
inductive TrustLevel where
  | UNKNOWN
  | PENDING
  | BASIC
  | TRUSTED
  | ESTABLISHED
deriving DecidableEq, Repr

/-- Ordinal value of the enum member, as in the Python source. -/
def TrustLevel.toNat : TrustLevel → Nat
  | .UNKNOWN => 0
  | .PENDING => 1
  | .BASIC => 2
  | .TRUSTED => 3
  | .ESTABLISHED => 4

/-- `AgentRecord` dataclass: record of a verified agent. -/
structure AgentRecord where
  address : String
  github_repo : Option String
  bns_name : Option String
  trust_level : TrustLevel
  total_airdrops_sats : Nat
  total_airdrops_stx : Nat
  verification_count : Nat
  first_seen : Nat
  last_activity : Nat
deriving DecidableEq, Repr

/-- `VerificationResult` dataclass: result of MCP setup verification. -/
structure VerificationResult where
  success : Bool
  checks_passed : List String
  checks_failed : List String
  trust_level : TrustLevel
  eligible_for_airdrop : Bool
  airdrop_amount_sats : Nat
  airdrop_amount_stx : Nat
  reason : String
deriving DecidableEq, Repr

/-- One entry of the `AIRDROP_AMOUNTS` table (sats and microSTX). -/
structure AirdropAmount where
  sbtc_sats : Nat
  stx_ustx : Nat
deriving DecidableEq, Repr

/-- `AIRDROP_AMOUNTS`: airdrop amounts by trust level; keys absent from the
dict are `none`. -/
def AIRDROP_AMOUNTS : TrustLevel → Option AirdropAmount
  | .BASIC => some ⟨1000, 100000⟩
  | .TRUSTED => some ⟨5000, 500000⟩
  | .ESTABLISHED => some ⟨10000, 1000000⟩
  | _ => none

/-- `MAX_AIRDROPS_PER_DAY = 10`. -/
def MAX_AIRDROPS_PER_DAY : Nat := 10

/-- `MAX_AIRDROPS_PER_ADDRESS = 5`. -/
def MAX_AIRDROPS_PER_ADDRESS : Nat := 5

/-- `COOLDOWN_HOURS = 24`. -/
def COOLDOWN_HOURS : Nat := 24

/-- `timedelta(hours = h)` measured in seconds. -/
def hoursToSeconds (h : Nat) : Nat := h * 3600

/-- Mutable state of an `MCPVerifier` instance (`__init__`). -/
structure MCPVerifier where
  min_stx_balance : Nat
  verified_agents : String → Option AgentRecord
  daily_airdrop_count : Nat
  last_reset : Nat

/-- `MCPVerifier.__init__`: empty ledger, zero daily count, `last_reset`
set to the construction time (`datetime.now()`). -/
def MCPVerifier.init (min_stx_balance : Nat) (now : Nat) : MCPVerifier :=
  { min_stx_balance := min_stx_balance
    verified_agents := fun _ => none
    daily_airdrop_count := 0
    last_reset := now }

/-- Python's `str.startswith`: the first characters of `s` are exactly `p`.
(Defined over the character list so that it evaluates inside the kernel.) -/
def startsWithStr (s p : String) : Bool :=
  decide (s.data.take p.data.length = p.data)

/-- `_is_valid_stacks_address`: prefix SP or ST, length at least 30. -/
def is_valid_stacks_address (address : String) : Bool :=
  (startsWithStr address ("SP") || startsWithStr address ("ST"))
    && decide (30 ≤ address.length)

/-- `_check_stx_balance`: the balance reported by the API on a 200 response
(`some b`), and `0` on any failure (`none`). -/
def check_stx_balance (response : Option Nat) : Nat :=
  match response with
  | some b => b
  | none => 0

/-- `_verify_mcp_endpoint`: `some code` models an HTTP response with status
`code`; `none` models a connection failure / timeout (the `except` path).
The source returns `resp.status_code in [200, 400, 405]`. -/
def verify_mcp_endpoint (response : Option Nat) : Bool :=
  match response with
  | some code => ([200, 400, 405] : List Nat).contains code
  | none => false

/-- `_verify_bns_ownership`: `some owner` models a 200 response whose
`data.address` field is `owner`; `none` models a non-200 response or an
exception.  The source returns `data.get("address") == address`. -/
def verify_bns_ownership (address : String) (lookup : Option String) : Bool :=
  match lookup with
  | some owner => owner == address
  | none => false

/-- `_calculate_trust_level`: trust level from checks and history.  The
existing-record branch returns early for counts above the thresholds and
otherwise falls through to the new-agent rule, exactly as in the source. -/
def calculate_trust_level (v : MCPVerifier) (checks_passed : List String)
    (address : String) : TrustLevel :=
  let fromHistory : Option TrustLevel :=
    match v.verified_agents address with
    | some existing =>
        if 5 ≤ existing.verification_count then some TrustLevel.ESTABLISHED
        else if 2 ≤ existing.verification_count then some TrustLevel.TRUSTED
        else none
    | none => none
  match fromHistory with
  | some lvl => lvl
  | none =>
      if 4 ≤ checks_passed.length then TrustLevel.BASIC
      else if 2 ≤ checks_passed.length then TrustLevel.PENDING
      else TrustLevel.UNKNOWN

/-- `_check_rate_limits`: lazily resets the daily window, then checks the
global daily cap, the per-address cooldown and the per-address lifetime cap.
Returns the verdict together with the (possibly reset) verifier state, since
the reset mutates `self` even when the verdict is deny.
The lazy daily-window reset (source lines 293-296) is split out as
`reset_daily_window`. -/
def reset_daily_window (v : MCPVerifier) (now : Nat) : MCPVerifier :=
  if hoursToSeconds 24 < now - v.last_reset then
    { v with daily_airdrop_count := 0, last_reset := now }
  else v

/-- The deny-or-allow verdict of `_check_rate_limits`, with the state. -/
def check_rate_limits (v : MCPVerifier) (now : Nat) (address : String) :
    Bool × MCPVerifier :=
  let v1 := reset_daily_window v now
  if MAX_AIRDROPS_PER_DAY ≤ v1.daily_airdrop_count then (false, v1)
  else
    match v1.verified_agents address with
    | some existing =>
        if now - existing.last_activity < hoursToSeconds COOLDOWN_HOURS then
          (false, v1)
        else if MAX_AIRDROPS_PER_ADDRESS ≤ existing.verification_count then
          (false, v1)
        else (true, v1)
    | none => (true, v1)

/-- `_record_verification`: create-or-increment the agent record and bump
the daily counter. -/
def record_verification (v : MCPVerifier) (now : Nat) (address : String)
    (github_repo : Option String) (bns_name : Option String)
    (trust_level : TrustLevel) : MCPVerifier :=
  match v.verified_agents address with
  | some existing =>
      { v with
        verified_agents := fun a =>
          if a = address then
            some { existing with
                     verification_count := existing.verification_count + 1
                     last_activity := now
                     trust_level := trust_level }
          else v.verified_agents a
        daily_airdrop_count := v.daily_airdrop_count + 1 }
  | none =>
      { v with
        verified_agents := fun a =>
          if a = address then
            some ⟨address, github_repo, bns_name, trust_level, 0, 0, 1, now, now⟩
          else v.verified_agents a
        daily_airdrop_count := v.daily_airdrop_count + 1 }

/-- `_fail_result`: a failed verification result (trust level UNKNOWN, no
eligibility, zero amounts). -/
def fail_result (passed : List String) (failed : List String)
    (reason : String) : VerificationResult :=
  { success := false
    checks_passed := passed
    checks_failed := failed
    trust_level := TrustLevel.UNKNOWN
    eligible_for_airdrop := false
    airdrop_amount_sats := 0
    airdrop_amount_stx := 0
    reason := reason }

/-- Checks 3-5 of `verify_agent` (the non-terminal, evidence-conditional
checks of lines 141-161): the suffixes they append to
`checks_passed = ["valid_address", "min_balance"]` and to
`checks_failed = []`.  Each check runs only if its evidence was supplied;
a failed BNS check appends nothing (the source has no `else` there). -/
def optional_checks (agent_address : String) (github_repo : Option String)
    (mcp_endpoint : Option String) (bns_name : Option String)
    (github_ok : Bool) (endpoint_response : Option Nat)
    (bns_lookup : Option String) : List String × List String :=
  let pf3 : List String × List String :=
    match github_repo with
    | some _ =>
        if github_ok then (["github_mcp"], []) else ([], ["github_mcp_missing"])
    | none => ([], [])
  let pf4 : List String × List String :=
    match mcp_endpoint with
    | some _ =>
        if verify_mcp_endpoint endpoint_response then
          (pf3.1 ++ ["mcp_endpoint"], pf3.2)
        else (pf3.1, pf3.2 ++ ["mcp_endpoint_down"])
    | none => pf3
  match bns_name with
  | some _ =>
      if verify_bns_ownership agent_address bns_lookup then
        (pf4.1 ++ ["bns_verified"], pf4.2)
      else pf4
  | none => pf4

/-- `verify_agent`: the full pipeline.  Oracle outcomes are passed in:
`balance_response` feeds `check_stx_balance`, `github_ok` is the boolean
`_verify_github_mcp` produced, `endpoint_response` feeds
`verify_mcp_endpoint`, `bns_lookup` feeds `verify_bns_ownership`.
Returns the result together with the updated verifier state. -/
def verify_agent (v : MCPVerifier) (now : Nat) (agent_address : String)
    (github_repo : Option String) (mcp_endpoint : Option String)
    (bns_name : Option String) (balance_response : Option Nat)
    (github_ok : Bool) (endpoint_response : Option Nat)
    (bns_lookup : Option String) : VerificationResult × MCPVerifier :=
  if is_valid_stacks_address agent_address then
    if v.min_stx_balance ≤ check_stx_balance balance_response then
      let oc := optional_checks agent_address github_repo mcp_endpoint
        bns_name github_ok endpoint_response bns_lookup
      let checks_passed := ["valid_address", "min_balance"] ++ oc.1
      let checks_failed := oc.2
      let trust_level := calculate_trust_level v checks_passed agent_address
      let rl := check_rate_limits v now agent_address
      if rl.1 then
        let eligible : Bool :=
          decide (3 ≤ checks_passed.length ∧ ("min_balance") ∈ checks_passed)
        let airdrop_amounts := (AIRDROP_AMOUNTS trust_level).getD ⟨0, 0⟩
        let v2 := if eligible then
                    record_verification rl.2 now agent_address github_repo
                      bns_name trust_level
                  else rl.2
        ({ success := eligible
           checks_passed := checks_passed
           checks_failed := checks_failed
           trust_level := trust_level
           eligible_for_airdrop := eligible
           airdrop_amount_sats := if eligible then airdrop_amounts.sbtc_sats else 0
           airdrop_amount_stx := if eligible then airdrop_amounts.stx_ustx else 0
           reason := if eligible then ("Verification passed")
                     else ("Insufficient checks passed") }, v2)
      else
        (fail_result checks_passed checks_failed
          ("Rate limit exceeded. Try again later."), rl.2)
    else
      (fail_result ["valid_address"] ["insufficient_balance"]
        ("Need at least the minimum STX balance"), v)
  else
    (fail_result [] ["invalid_address"] ("Invalid Stacks address"), v)

/-- One call to `verify_agent`: its clock reading, arguments and oracle
outcomes. -/
structure VerifyCall where
  now : Nat
  agent_address : String
  github_repo : Option String
  mcp_endpoint : Option String
  bns_name : Option String
  balance_response : Option Nat
  github_ok : Bool
  endpoint_response : Option Nat
  bns_lookup : Option String
deriving Repr

/-- `verify_agent` applied to a packaged call. -/
def verify_agent_c (v : MCPVerifier) (c : VerifyCall) :
    VerificationResult × MCPVerifier :=
  verify_agent v c.now c.agent_address c.github_repo c.mcp_endpoint
    c.bns_name c.balance_response c.github_ok c.endpoint_response c.bns_lookup

/-- Final verifier state after a sequence of `verify_agent` calls. -/
def runCalls : MCPVerifier → List VerifyCall → MCPVerifier
  | v, [] => v
  | v, c :: cs => runCalls (verify_agent_c v c).2 cs

/-- Whether some call of the sequence, executed from state `v`, targets
address `a` and comes back eligible for the airdrop. -/
def passedEligibility : MCPVerifier → List VerifyCall → String → Bool
  | _, [], _ => false
  | v, c :: cs, a =>
      ((c.agent_address == a) && (verify_agent_c v c).1.eligible_for_airdrop)
        || passedEligibility (verify_agent_c v c).2 cs a

/-- The clock readings of the calls are nondecreasing and start at or after
`t` (real time never runs backwards). -/
def timesChain : Nat → List VerifyCall → Bool
  | _, [] => true
  | t, c :: cs => decide (t ≤ c.now) && timesChain c.now cs

/-- Ledger well-formedness at clock bound `t`: every record has a positive
verification count and ordered timestamps, none in the future. -/
def recordsWF (v : MCPVerifier) (t : Nat) : Prop :=
  ∀ a rec, v.verified_agents a = some rec →
    1 ≤ rec.verification_count ∧ rec.first_seen ≤ rec.last_activity ∧
      rec.last_activity ≤ t

/-- Every record of the ledger has a positive verification count. -/
def countWF (v : MCPVerifier) : Prop :=
  ∀ a rec, v.verified_agents a = some rec → 1 ≤ rec.verification_count

/-- The identity has a ledger record at or above the per-address cap. -/
def exhausted (v : MCPVerifier) (a : String) : Prop :=
  ∃ rec, v.verified_agents a = some rec ∧
    MAX_AIRDROPS_PER_ADDRESS ≤ rec.verification_count

/-- A well-formed sample address: SP prefix, 32 characters. -/
def sampleAddr : String := "SP000000000000000000000000000001"

/-- A fresh verifier with the default minimum balance, constructed at
time 0. -/
def sampleVerifier : MCPVerifier := MCPVerifier.init 100000 0

/-- A fully-passing verification call for `sampleAddr` at time `now`:
balance at the minimum, repository and endpoint evidence both passing. -/
def mkCall (now : Nat) : VerifyCall :=
  ⟨now, sampleAddr, some ("owner/repo"), some ("https://mcp.example"), none,
    some 100000, true, some 200, none⟩

/-- Five fully-passing calls spaced beyond the cooldown window. -/
def sampleTrace : List VerifyCall :=
  [mkCall 0, mkCall 100000, mkCall 200000, mkCall 300000, mkCall 400000]

/-- The verifier state after `sampleTrace`: `sampleAddr` has exhausted its
per-address allotment. -/
def exhaustedVerifier : MCPVerifier := runCalls sampleVerifier sampleTrace

/-- The record `sampleTrace` leaves behind for `sampleAddr`: five
verifications, first seen at 0, last active at 400000, cached level
TRUSTED (the level computed on the fifth call, when the count was 4). -/
def record5 : AgentRecord :=
  ⟨sampleAddr, some ("owner/repo"), none, TrustLevel.TRUSTED, 0, 0, 5, 0, 400000⟩

/-- An agent record two verifications in, last active at time 1000. -/
def record2 : AgentRecord :=
  ⟨sampleAddr, none, none, TrustLevel.BASIC, 0, 0, 2, 500, 1000⟩

/-- A verifier whose ledger holds `record2`, with the cooldown for
`sampleAddr` active at time 1000. -/
def cooldownVerifier : MCPVerifier :=
  { min_stx_balance := 100000
    verified_agents := fun a => if a = sampleAddr then some record2 else none
    daily_airdrop_count := 1
    last_reset := 1000 }

/-- The lazy reset never touches the ledger or the configured minimum. -/
theorem reset_daily_window_fields (v : MCPVerifier) (now : Nat) :
    (reset_daily_window v now).verified_agents = v.verified_agents ∧
    (reset_daily_window v now).min_stx_balance = v.min_stx_balance := by
  unfold reset_daily_window
  split <;> exact ⟨rfl, rfl⟩

/-- The state returned by the rate-limit check is exactly the lazily-reset
state: the verdict branches never mutate anything else. -/
theorem check_rate_limits_snd (v : MCPVerifier) (now : Nat) (a : String) :
    (check_rate_limits v now a).2 = reset_daily_window v now := by
  simp only [check_rate_limits]
  split
  · rfl
  · split
    · split
      · rfl
      · split <;> rfl
    · rfl

/-- The rate-limit check never touches the ledger: only the daily counter
and the window start can change. -/
theorem check_rate_limits_snd_agents (v : MCPVerifier) (now : Nat)
    (a : String) :
    (check_rate_limits v now a).2.verified_agents = v.verified_agents ∧
    (check_rate_limits v now a).2.min_stx_balance = v.min_stx_balance := by
  rw [check_rate_limits_snd]
  exact reset_daily_window_fields v now

/-- Pointwise description of the ledger after `record_verification`. -/
theorem record_verification_agents (v : MCPVerifier) (now : Nat)
    (addr : String) (repo bns : Option String) (tl : TrustLevel)
    (a : String) :
    (record_verification v now addr repo bns tl).verified_agents a =
      if a = addr then
        some (match v.verified_agents addr with
              | some ex =>
                  { ex with verification_count := ex.verification_count + 1
                            last_activity := now
                            trust_level := tl }
              | none => ⟨addr, repo, bns, tl, 0, 0, 1, now, now⟩)
      else v.verified_agents a := by
  unfold record_verification
  cases h : v.verified_agents addr <;> simp [h]

/-- A record at or above the per-address cap makes the rate limiter deny,
whatever the clock says. -/
theorem rate_cap_denies (v : MCPVerifier) (now : Nat) (a : String)
    (rec : AgentRecord) (hrec : v.verified_agents a = some rec)
    (hcap : MAX_AIRDROPS_PER_ADDRESS ≤ rec.verification_count) :
    (check_rate_limits v now a).1 = false := by
  simp only [check_rate_limits]
  split
  · rfl
  · have h : (reset_daily_window v now).verified_agents a = some rec := by
      rw [(reset_daily_window_fields v now).1]; exact hrec
    rw [h]
    show (if now - rec.last_activity < hoursToSeconds COOLDOWN_HOURS then
            (false, reset_daily_window v now)
          else if MAX_AIRDROPS_PER_ADDRESS ≤ rec.verification_count then
            (false, reset_daily_window v now)
          else (true, reset_daily_window v now)).1 = false
    rw [if_pos hcap]
    split <;> rfl

/-- C2: the format check and the stake check are terminal.  A malformed
address returns immediately (ledger and counters untouched) with eligibility
false, both amounts 0, empty passed list and only `invalid_address` failed,
regardless of any other supplied evidence; a well-formed address whose
balance is below the configured minimum returns immediately with
`insufficient_balance` as the only failed check, eligibility false and both
amounts 0. -/
theorem C2_terminal_checks (v : MCPVerifier) (now : Nat) (addr : String)
    (repo ep bns : Option String) (bal : Option Nat) (gok : Bool)
    (er : Option Nat) (bl : Option String) :
    (is_valid_stacks_address addr = false →
      (verify_agent v now addr repo ep bns bal gok er bl).1.eligible_for_airdrop = false ∧
      (verify_agent v now addr repo ep bns bal gok er bl).1.airdrop_amount_sats = 0 ∧
      (verify_agent v now addr repo ep bns bal gok er bl).1.airdrop_amount_stx = 0 ∧
      (verify_agent v now addr repo ep bns bal gok er bl).1.checks_passed = [] ∧
      (verify_agent v now addr repo ep bns bal gok er bl).1.checks_failed =
        ["invalid_address"] ∧
      (verify_agent v now addr repo ep bns bal gok er bl).2 = v) ∧
    (is_valid_stacks_address addr = true →
      check_stx_balance bal < v.min_stx_balance →
      (verify_agent v now addr repo ep bns bal gok er bl).1.eligible_for_airdrop = false ∧
      (verify_agent v now addr repo ep bns bal gok er bl).1.airdrop_amount_sats = 0 ∧
      (verify_agent v now addr repo ep bns bal gok er bl).1.airdrop_amount_stx = 0 ∧
      (verify_agent v now addr repo ep bns bal gok er bl).1.checks_passed =
        ["valid_address"] ∧
      (verify_agent v now addr repo ep bns bal gok er bl).1.checks_failed =
        ["insufficient_balance"] ∧
      (verify_agent v now addr repo ep bns bal gok er bl).2 = v) := by
  constructor
  · intro h
    simp [verify_agent, h, fail_result]
  · intro h hb
    simp [verify_agent, h, Nat.not_le.mpr hb, fail_result]

/-- C2 witness: both terminal paths at concrete inputs. -/
theorem C2_terminal_checks_witness :
    is_valid_stacks_address ("0xdeadbeef") = false ∧
    (verify_agent sampleVerifier 0 ("0xdeadbeef") none none none (some 100000)
        true none none).1.checks_failed = ["invalid_address"] ∧
    (verify_agent sampleVerifier 0 sampleAddr none none none (some 99999)
        true none none).1.checks_failed = ["insufficient_balance"] :=
  ⟨by decide,
   ((C2_terminal_checks sampleVerifier 0 ("0xdeadbeef") none none none
      (some 100000) true none none).1 (by decide)).2.2.2.2.1,
   ((C2_terminal_checks sampleVerifier 0 sampleAddr none none none
      (some 99999) true none none).2 (by decide) (by decide)).2.2.2.2.1⟩

/-- C3: the trust-level transition function.  With an existing record,
`verification_count ≥ 5` yields ESTABLISHED and otherwise
`verification_count ≥ 2` yields TRUSTED, independently of the fresh check
count; with no record, or a record below both thresholds, 4 or more checks
yield BASIC, 2 or more yield PENDING, otherwise UNKNOWN.  (The function is
pure: it takes the state and returns only the level.) -/
theorem C3_trust_transition (v : MCPVerifier) (checks : List String)
    (addr : String) :
    (∀ rec, v.verified_agents addr = some rec →
      (5 ≤ rec.verification_count →
        calculate_trust_level v checks addr = TrustLevel.ESTABLISHED) ∧
      (rec.verification_count < 5 → 2 ≤ rec.verification_count →
        calculate_trust_level v checks addr = TrustLevel.TRUSTED) ∧
      (rec.verification_count < 2 →
        calculate_trust_level v checks addr =
          (if 4 ≤ checks.length then TrustLevel.BASIC
           else if 2 ≤ checks.length then TrustLevel.PENDING
           else TrustLevel.UNKNOWN))) ∧
    (v.verified_agents addr = none →
      calculate_trust_level v checks addr =
        (if 4 ≤ checks.length then TrustLevel.BASIC
         else if 2 ≤ checks.length then TrustLevel.PENDING
         else TrustLevel.UNKNOWN)) := by
  constructor
  · intro rec hrec
    refine ⟨fun h5 => ?_, fun hlt5 h2 => ?_, fun hlt2 => ?_⟩
    · simp [calculate_trust_level, hrec, h5]
    · simp [calculate_trust_level, hrec, Nat.not_le.mpr hlt5, h2]
    · have h5 : ¬ 5 ≤ rec.verification_count := by omega
      have h2 : ¬ 2 ≤ rec.verification_count := by omega
      simp [calculate_trust_level, hrec, h5, h2]
  · intro hnone
    simp [calculate_trust_level, hnone]

/-- C3 witness: a ledger record with `verification_count = 5` and a single
fresh check resolves to ESTABLISHED. -/
theorem C3_trust_transition_witness :
    calculate_trust_level exhaustedVerifier ["a"] sampleAddr =
      TrustLevel.ESTABLISHED :=
  ((C3_trust_transition exhaustedVerifier ["a"] sampleAddr).1 record5
    (by decide)).1 (by decide)

/-- C9: the endpoint-liveness check does NOT pass on every HTTP-level
response: the source accepts exactly the statuses 200, 400 and 405 (despite
its own `Any response = alive` comment), so a 500 or 404 response fails the
check; a connection failure or timeout fails it too. -/
theorem C9_endpoint_status_codes :
    verify_mcp_endpoint (some 200) = true ∧
    verify_mcp_endpoint (some 400) = true ∧
    verify_mcp_endpoint (some 405) = true ∧
    verify_mcp_endpoint (some 500) = false ∧
    verify_mcp_endpoint (some 404) = false ∧
    verify_mcp_endpoint none = false := by decide

/-- C5: the global daily counter.  On a rate-limiter call the counter is
reset to 0 (and the window start set to `now`) exactly when more than 24
hours have passed since the window start, and is left exactly unchanged
(in particular never decremented) otherwise; after a clock advance of more
than 24 hours, a request that only the global daily cap was blocking is
allowed again. -/
theorem C5_daily_window (v : MCPVerifier) (now : Nat) (addr : String) :
    (hoursToSeconds 24 < now - v.last_reset →
      (check_rate_limits v now addr).2.daily_airdrop_count = 0 ∧
      (check_rate_limits v now addr).2.last_reset = now) ∧
    (¬ hoursToSeconds 24 < now - v.last_reset →
      (check_rate_limits v now addr).2.daily_airdrop_count =
        v.daily_airdrop_count ∧
      (check_rate_limits v now addr).2.last_reset = v.last_reset) ∧
    (¬ hoursToSeconds 24 < now - v.last_reset →
      MAX_AIRDROPS_PER_DAY ≤ v.daily_airdrop_count →
      (check_rate_limits v now addr).1 = false) ∧
    (hoursToSeconds 24 < now - v.last_reset →
      (v.verified_agents addr = none ∨
        ∃ rec, v.verified_agents addr = some rec ∧
          ¬ now - rec.last_activity < hoursToSeconds COOLDOWN_HOURS ∧
          rec.verification_count < MAX_AIRDROPS_PER_ADDRESS) →
      (check_rate_limits v now addr).1 = true) := by
  refine ⟨fun h => ?_, fun h => ?_, fun h hcap => ?_, fun h hrec => ?_⟩
  · rw [check_rate_limits_snd]
    simp [reset_daily_window, h]
  · rw [check_rate_limits_snd]
    simp [reset_daily_window, h]
  · simp only [check_rate_limits]
    have hv1 : reset_daily_window v now = v := by
      simp [reset_daily_window, h]
    rw [hv1, if_pos hcap]
  · simp only [check_rate_limits]
    have hv1 : reset_daily_window v now =
        { v with daily_airdrop_count := 0, last_reset := now } := by
      simp [reset_daily_window, h]
    rw [hv1]
    have hday : ¬ MAX_AIRDROPS_PER_DAY ≤
        ({ v with daily_airdrop_count := 0, last_reset := now } :
          MCPVerifier).daily_airdrop_count := by
      simp [MAX_AIRDROPS_PER_DAY]
    rw [if_neg hday]
    rcases hrec with hnone | ⟨rec, hsome, hcool, hcount⟩
    · show (match v.verified_agents addr with
            | some existing =>
                if now - existing.last_activity < hoursToSeconds COOLDOWN_HOURS then
                  (false, { v with daily_airdrop_count := 0, last_reset := now })
                else if MAX_AIRDROPS_PER_ADDRESS ≤ existing.verification_count then
                  (false, { v with daily_airdrop_count := 0, last_reset := now })
                else (true, { v with daily_airdrop_count := 0, last_reset := now })
            | none => (true, { v with daily_airdrop_count := 0, last_reset := now })).1 = true
      rw [hnone]
    · show (match v.verified_agents addr with
            | some existing =>
                if now - existing.last_activity < hoursToSeconds COOLDOWN_HOURS then
                  (false, { v with daily_airdrop_count := 0, last_reset := now })
                else if MAX_AIRDROPS_PER_ADDRESS ≤ existing.verification_count then
                  (false, { v with daily_airdrop_count := 0, last_reset := now })
                else (true, { v with daily_airdrop_count := 0, last_reset := now })
            | none => (true, { v with daily_airdrop_count := 0, last_reset := now })).1 = true
      rw [hsome]
      show (if now - rec.last_activity < hoursToSeconds COOLDOWN_HOURS then
              (false, { v with daily_airdrop_count := 0, last_reset := now })
            else if MAX_AIRDROPS_PER_ADDRESS ≤ rec.verification_count then
              (false, { v with daily_airdrop_count := 0, last_reset := now })
            else (true, { v with daily_airdrop_count := 0, last_reset := now })).1 = true
      rw [if_neg hcool, if_neg (Nat.not_le.mpr hcount)]

/-- C5 witness: a verifier whose daily cap was reached is denied before the
window elapses and allowed after it. -/
theorem C5_daily_window_witness :
    (check_rate_limits
        { min_stx_balance := 100000, verified_agents := fun _ => none,
          daily_airdrop_count := 10, last_reset := 0 } 1000 sampleAddr).1 =
      false ∧
    (check_rate_limits
        { min_stx_balance := 100000, verified_agents := fun _ => none,
          daily_airdrop_count := 10, last_reset := 0 } 90000 sampleAddr).1 =
      true ∧
    (check_rate_limits
        { min_stx_balance := 100000, verified_agents := fun _ => none,
          daily_airdrop_count := 10, last_reset := 0 } 90000
        sampleAddr).2.daily_airdrop_count = 0 :=
  ⟨((C5_daily_window
      { min_stx_balance := 100000, verified_agents := fun _ => none,
        daily_airdrop_count := 10, last_reset := 0 } 1000 sampleAddr).2.2.1
      (by decide) (by decide)),
   ((C5_daily_window
      { min_stx_balance := 100000, verified_agents := fun _ => none,
        daily_airdrop_count := 10, last_reset := 0 } 90000 sampleAddr).2.2.2
      (by decide) (Or.inl rfl)),
   ((C5_daily_window
      { min_stx_balance := 100000, verified_agents := fun _ => none,
        daily_airdrop_count := 10, last_reset := 0 } 90000 sampleAddr).1
      (by decide)).1⟩

/-- C8 counterexample: a request that passes format and stake but is denied
by the rate limiter (cooldown active) does NOT report the trust level the
ledger and checks compute.  The computed level (what an allowed request
would report) is TRUSTED, yet the returned result carries UNKNOWN, because
`_fail_result` hard-codes `TrustLevel.UNKNOWN`. -/
theorem C8_trust_level_counterexample :
    is_valid_stacks_address sampleAddr = true ∧
    (100000 ≤ check_stx_balance (some 100000)) ∧
    (check_rate_limits cooldownVerifier 1000 sampleAddr).1 = false ∧
    calculate_trust_level cooldownVerifier
      ((verify_agent cooldownVerifier 1000 sampleAddr none none none
          (some 100000) true none none).1.checks_passed) sampleAddr =
      TrustLevel.TRUSTED ∧
    (verify_agent cooldownVerifier 1000 sampleAddr none none none
        (some 100000) true none none).1.trust_level = TrustLevel.UNKNOWN ∧
    TrustLevel.UNKNOWN ≠ TrustLevel.TRUSTED := by decide

/-- C8 amended: for every request that passes the format and stake checks
but is denied by the rate limiter, the result has both reward amounts 0 and
eligibility false, but it reports trust level UNKNOWN — `_fail_result`
discards the trust level computed from the ledger and the current checks
rather than reporting it. -/
theorem C8_rate_limited_zero (v : MCPVerifier) (now : Nat) (addr : String)
    (repo ep bns : Option String) (bal : Option Nat) (gok : Bool)
    (er : Option Nat) (bl : Option String)
    (hfmt : is_valid_stacks_address addr = true)
    (hbal : v.min_stx_balance ≤ check_stx_balance bal)
    (hdenied : (check_rate_limits v now addr).1 = false) :
    (verify_agent v now addr repo ep bns bal gok er bl).1.airdrop_amount_sats = 0 ∧
    (verify_agent v now addr repo ep bns bal gok er bl).1.airdrop_amount_stx = 0 ∧
    (verify_agent v now addr repo ep bns bal gok er bl).1.eligible_for_airdrop = false ∧
    (verify_agent v now addr repo ep bns bal gok er bl).1.trust_level =
      TrustLevel.UNKNOWN ∧
    (verify_agent v now addr repo ep bns bal gok er bl).1.reason =
      ("Rate limit exceeded. Try again later.") := by
  simp [verify_agent, hfmt, hbal, hdenied, fail_result]

/-- C8 witness: the amended statement at the cooldown counterexample. -/
theorem C8_rate_limited_zero_witness :
    (verify_agent cooldownVerifier 1000 sampleAddr none none none
        (some 100000) true none none).1.airdrop_amount_sats = 0 ∧
    (verify_agent cooldownVerifier 1000 sampleAddr none none none
        (some 100000) true none none).1.airdrop_amount_stx = 0 ∧
    (verify_agent cooldownVerifier 1000 sampleAddr none none none
        (some 100000) true none none).1.eligible_for_airdrop = false ∧
    (verify_agent cooldownVerifier 1000 sampleAddr none none none
        (some 100000) true none none).1.trust_level = TrustLevel.UNKNOWN ∧
    (verify_agent cooldownVerifier 1000 sampleAddr none none none
        (some 100000) true none none).1.reason =
      ("Rate limit exceeded. Try again later.") :=
  C8_rate_limited_zero cooldownVerifier 1000 sampleAddr none none none
    (some 100000) true none none (by decide) (by decide) (by decide)

/-- A failed BNS check leaves both accumulated check lists unchanged. -/
theorem optional_checks_bns_fail (addr : String) (repo ep : Option String)
    (name : String) (gok : Bool) (er : Option Nat) (bl : Option String)
    (h : verify_bns_ownership addr bl = false) :
    optional_checks addr repo ep (some name) gok er bl =
      optional_checks addr repo ep none gok er bl := by
  simp [optional_checks, h]

/-- A passing BNS check appends exactly `bns_verified` to the passed list
and nothing to the failed list. -/
theorem optional_checks_bns_pass (addr : String) (repo ep : Option String)
    (name : String) (gok : Bool) (er : Option Nat) (bl : Option String)
    (h : verify_bns_ownership addr bl = true) :
    (optional_checks addr repo ep (some name) gok er bl).1 =
      (optional_checks addr repo ep none gok er bl).1 ++ ["bns_verified"] ∧
    (optional_checks addr repo ep (some name) gok er bl).2 =
      (optional_checks addr repo ep none gok er bl).2 := by
  simp [optional_checks, h]

/-- C10: a failed name-ownership check is never recorded.  When a BNS name
is supplied and the ownership check fails, the result's failed list (and its
passed list) are exactly those of the same request without the name; only a
passing name check changes anything, appending `bns_verified` to the passed
list and nothing to the failed list. -/
theorem C10_bns_fail_unrecorded (v : MCPVerifier) (now : Nat) (addr : String)
    (repo ep : Option String) (name : String) (bal : Option Nat)
    (gok : Bool) (er : Option Nat) (bl : Option String) :
    (verify_bns_ownership addr bl = false →
      (verify_agent v now addr repo ep (some name) bal gok er bl).1.checks_failed =
        (verify_agent v now addr repo ep none bal gok er bl).1.checks_failed ∧
      (verify_agent v now addr repo ep (some name) bal gok er bl).1.checks_passed =
        (verify_agent v now addr repo ep none bal gok er bl).1.checks_passed) ∧
    (verify_bns_ownership addr bl = true →
      (verify_agent v now addr repo ep (some name) bal gok er bl).1.checks_failed =
        (verify_agent v now addr repo ep none bal gok er bl).1.checks_failed) ∧
    (verify_bns_ownership addr bl = true → is_valid_stacks_address addr = true →
      v.min_stx_balance ≤ check_stx_balance bal →
      (verify_agent v now addr repo ep (some name) bal gok er bl).1.checks_passed =
        (verify_agent v now addr repo ep none bal gok er bl).1.checks_passed
          ++ ["bns_verified"]) := by
  refine ⟨fun h => ?_, fun h => ?_, fun h hfmt hbal => ?_⟩
  · by_cases hfmt : is_valid_stacks_address addr
    · by_cases hbal : v.min_stx_balance ≤ check_stx_balance bal
      · have hoc := optional_checks_bns_fail addr repo ep name gok er bl h
        cases hrl : (check_rate_limits v now addr).1 <;>
          simp [verify_agent, hfmt, hbal, hrl, fail_result, hoc]
      · simp [verify_agent, hfmt, hbal]
    · simp [verify_agent, hfmt]
  · by_cases hfmt : is_valid_stacks_address addr
    · by_cases hbal : v.min_stx_balance ≤ check_stx_balance bal
      · have hoc := optional_checks_bns_pass addr repo ep name gok er bl h
        cases hrl : (check_rate_limits v now addr).1 <;>
          simp [verify_agent, hfmt, hbal, hrl, fail_result, hoc.2]
      · simp [verify_agent, hfmt, hbal]
    · simp [verify_agent, hfmt]
  · have hoc := optional_checks_bns_pass addr repo ep name gok er bl h
    cases hrl : (check_rate_limits v now addr).1 <;>
      simp [verify_agent, hfmt, hbal, hrl, fail_result, hoc.1]

/-- C10 witness: with a BNS name supplied and the lookup owned by someone
else, the failed list matches the no-name request's failed list. -/
theorem C10_bns_fail_unrecorded_witness :
    verify_bns_ownership sampleAddr (some ("someone.else")) = false ∧
    (verify_agent sampleVerifier 0 sampleAddr none none (some ("me.btc"))
        (some 100000) true none (some ("someone.else"))).1.checks_failed =
      (verify_agent sampleVerifier 0 sampleAddr none none none
        (some 100000) true none (some ("someone.else"))).1.checks_failed :=
  ⟨by decide,
   ((C10_bns_fail_unrecorded sampleVerifier 0 sampleAddr none none ("me.btc")
      (some 100000) true none (some ("someone.else"))).1 (by decide)).1⟩

/-- C1: for every request that passes the format check and whose balance
meets the configured minimum (equality included), the stake check is in the
passed list, and the result is eligible iff the rate limiter allowed the
request and at least 3 checks passed in total; when eligible the two reward
amounts are the fixed table entries for the computed trust level, and when
not eligible both amounts are 0.  For a first-time identity with repository
and endpoint checks both passing (and no BNS name): 4 checks passed, trust
level BASIC, BASIC-tier amounts 1000 sats and 100000 microSTX. -/
theorem C1_decider_eligibility (v : MCPVerifier) (now : Nat) (addr : String)
    (repo ep bns : Option String) (bal : Option Nat) (gok : Bool)
    (er : Option Nat) (bl : Option String)
    (hfmt : is_valid_stacks_address addr = true)
    (hbal : v.min_stx_balance ≤ check_stx_balance bal) :
    (("min_balance") ∈ (verify_agent v now addr repo ep bns bal gok er bl).1.checks_passed) ∧
    ((verify_agent v now addr repo ep bns bal gok er bl).1.eligible_for_airdrop =
      ((check_rate_limits v now addr).1 &&
        decide (3 ≤ (verify_agent v now addr repo ep bns bal gok er bl).1.checks_passed.length))) ∧
    ((verify_agent v now addr repo ep bns bal gok er bl).1.eligible_for_airdrop = true →
      (verify_agent v now addr repo ep bns bal gok er bl).1.airdrop_amount_sats =
        ((AIRDROP_AMOUNTS
          ((verify_agent v now addr repo ep bns bal gok er bl).1.trust_level)).getD
            ⟨0, 0⟩).sbtc_sats ∧
      (verify_agent v now addr repo ep bns bal gok er bl).1.airdrop_amount_stx =
        ((AIRDROP_AMOUNTS
          ((verify_agent v now addr repo ep bns bal gok er bl).1.trust_level)).getD
            ⟨0, 0⟩).stx_ustx) ∧
    ((verify_agent v now addr repo ep bns bal gok er bl).1.eligible_for_airdrop = false →
      (verify_agent v now addr repo ep bns bal gok er bl).1.airdrop_amount_sats = 0 ∧
      (verify_agent v now addr repo ep bns bal gok er bl).1.airdrop_amount_stx = 0) ∧
    (v.verified_agents addr = none → gok = true → verify_mcp_endpoint er = true →
      repo.isSome = true → ep.isSome = true → bns = none →
      (check_rate_limits v now addr).1 = true →
      (verify_agent v now addr repo ep bns bal gok er bl).1.checks_passed.length = 4 ∧
      (verify_agent v now addr repo ep bns bal gok er bl).1.trust_level = TrustLevel.BASIC ∧
      (verify_agent v now addr repo ep bns bal gok er bl).1.eligible_for_airdrop = true ∧
      (verify_agent v now addr repo ep bns bal gok er bl).1.airdrop_amount_sats = 1000 ∧
      (verify_agent v now addr repo ep bns bal gok er bl).1.airdrop_amount_stx = 100000) := by
  have hm : ("min_balance") ∈
      ["valid_address", "min_balance"] ++ (optional_checks addr repo ep bns gok er bl).1 := by
    simp
  cases hrl : (check_rate_limits v now addr).1 with
  | false =>
    refine ⟨?_, ?_, ?_, ?_, ?_⟩
    · simp [verify_agent, hfmt, hbal, hrl, fail_result]
    · simp [verify_agent, hfmt, hbal, hrl, fail_result]
    · simp [verify_agent, hfmt, hbal, hrl, fail_result]
    · simp [verify_agent, hfmt, hbal, hrl, fail_result]
    · intro _ _ _ _ _ _ hcontra
      exact absurd hcontra (by simp)
  | true =>
    refine ⟨?_, ?_, ?_, ?_, ?_⟩
    · simp [verify_agent, hfmt, hbal, hrl]
    · simp [verify_agent, hfmt, hbal, hrl, hm]
    · intro he
      simp only [verify_agent, hfmt, hbal, hrl, if_true, if_pos hbal] at he ⊢
      simp at he
      simp [he]
    · intro he
      simp only [verify_agent, hfmt, hbal, hrl, if_true, if_pos hbal] at he ⊢
      simp at he
      simp [he]
    · intro hnone hgok halive hrepo hep hbns _
      subst hbns
      rcases repo with _ | r
      · simp at hrepo
      rcases ep with _ | e
      · simp at hep
      have hoc : optional_checks addr (some r) (some e) none gok er bl =
          (["github_mcp", "mcp_endpoint"], []) := by
        simp [optional_checks, hgok, halive]
      simp [verify_agent, hfmt, hbal, hrl, hoc, calculate_trust_level, hnone,
        AIRDROP_AMOUNTS]

/-- C1 witness: the example scenario at concrete inputs — balance exactly
at the minimum, repository and endpoint evidence both passing, first
verification: BASIC level and BASIC-tier amounts. -/
theorem C1_decider_eligibility_witness :
    is_valid_stacks_address sampleAddr = true ∧
    (verify_agent sampleVerifier 0 sampleAddr (some ("owner/repo"))
        (some ("https://mcp.example")) none (some 100000) true (some 200)
        none).1.trust_level = TrustLevel.BASIC ∧
    (verify_agent sampleVerifier 0 sampleAddr (some ("owner/repo"))
        (some ("https://mcp.example")) none (some 100000) true (some 200)
        none).1.airdrop_amount_sats = 1000 ∧
    (verify_agent sampleVerifier 0 sampleAddr (some ("owner/repo"))
        (some ("https://mcp.example")) none (some 100000) true (some 200)
        none).1.airdrop_amount_stx = 100000 := by
  have h := (C1_decider_eligibility sampleVerifier 0 sampleAddr
      (some ("owner/repo")) (some ("https://mcp.example")) none (some 100000)
      true (some 200) none (by decide) (by decide)).2.2.2.2
      rfl rfl (by decide) rfl rfl rfl (by decide)
  exact ⟨by decide, h.2.1, h.2.2.2.1, h.2.2.2.2⟩

/-- A rate-limit denial forces a failed result: no eligibility and zero
amounts, whatever the other evidence. -/
theorem verify_fst_denied (v : MCPVerifier) (now : Nat) (addr : String)
    (repo ep bns : Option String) (bal : Option Nat) (gok : Bool)
    (er : Option Nat) (bl : Option String)
    (hdenied : (check_rate_limits v now addr).1 = false) :
    (verify_agent v now addr repo ep bns bal gok er bl).1.eligible_for_airdrop = false ∧
    (verify_agent v now addr repo ep bns bal gok er bl).1.airdrop_amount_sats = 0 ∧
    (verify_agent v now addr repo ep bns bal gok er bl).1.airdrop_amount_stx = 0 := by
  by_cases hfmt : is_valid_stacks_address addr
  · by_cases hbal : v.min_stx_balance ≤ check_stx_balance bal
    · simp [verify_agent, hfmt, hbal, hdenied, fail_result]
    · simp [verify_agent, hfmt, hbal, fail_result]
  · simp [verify_agent, hfmt, fail_result]

/-- The state returned by `verify_agent`: commit exactly on the eligible
path, the lazily-reset limiter state on the rate-denied or ineligible path,
and the untouched input state on the two terminal failures. -/
theorem verify_snd_eq (v : MCPVerifier) (now : Nat) (addr : String)
    (repo ep bns : Option String) (bal : Option Nat) (gok : Bool)
    (er : Option Nat) (bl : Option String) :
    (verify_agent v now addr repo ep bns bal gok er bl).2 =
      (if is_valid_stacks_address addr
          && decide (v.min_stx_balance ≤ check_stx_balance bal) then
        (if (check_rate_limits v now addr).1
            && decide (3 ≤ (["valid_address", "min_balance"] ++
                (optional_checks addr repo ep bns gok er bl).1).length ∧
              ("min_balance") ∈ ["valid_address", "min_balance"] ++
                (optional_checks addr repo ep bns gok er bl).1) then
          record_verification (check_rate_limits v now addr).2 now addr repo bns
            (calculate_trust_level v (["valid_address", "min_balance"] ++
              (optional_checks addr repo ep bns gok er bl).1) addr)
        else (check_rate_limits v now addr).2)
      else v) := by
  by_cases hfmt : is_valid_stacks_address addr
  · by_cases hbal : v.min_stx_balance ≤ check_stx_balance bal
    · cases hrl : (check_rate_limits v now addr).1 with
      | false => simp [verify_agent, hfmt, hbal, hrl]
      | true =>
          by_cases he : (3 ≤ (["valid_address", "min_balance"] ++
              (optional_checks addr repo ep bns gok er bl).1).length ∧
              ("min_balance") ∈ ["valid_address", "min_balance"] ++
                (optional_checks addr repo ep bns gok er bl).1)
          · simp [verify_agent, hfmt, hbal, hrl, he]
          · simp [verify_agent, hfmt, hbal, hrl, he]
    · simp [verify_agent, hfmt, hbal]
  · simp [verify_agent, hfmt]

/-- An exhausted identity stays exhausted across any further call. -/
theorem verify_preserves_exhausted (v : MCPVerifier) (c : VerifyCall)
    (a : String) (h : exhausted v a) : exhausted (verify_agent_c v c).2 a := by
  obtain ⟨rec, hrec, hcap⟩ := h
  have hsnd := verify_snd_eq v c.now c.agent_address c.github_repo
    c.mcp_endpoint c.bns_name c.balance_response c.github_ok
    c.endpoint_response c.bns_lookup
  have hagents := (check_rate_limits_snd_agents v c.now c.agent_address).1
  by_cases hout : (is_valid_stacks_address c.agent_address
      && decide (v.min_stx_balance ≤ check_stx_balance c.balance_response)) = true
  · rw [verify_agent_c, hsnd, if_pos hout]
    by_cases hin : ((check_rate_limits v c.now c.agent_address).1
        && decide (3 ≤ (["valid_address", "min_balance"] ++
            (optional_checks c.agent_address c.github_repo c.mcp_endpoint
              c.bns_name c.github_ok c.endpoint_response c.bns_lookup).1).length ∧
          ("min_balance") ∈ ["valid_address", "min_balance"] ++
            (optional_checks c.agent_address c.github_repo c.mcp_endpoint
              c.bns_name c.github_ok c.endpoint_response c.bns_lookup).1)) = true
    · rw [if_pos hin]
      by_cases hae : a = c.agent_address
      · subst hae
        have hdeny := rate_cap_denies v c.now c.agent_address rec hrec hcap
        rw [hdeny] at hin
        simp at hin
      · refine ⟨rec, ?_, hcap⟩
        rw [record_verification_agents]
        rw [if_neg hae, hagents]
        exact hrec
    · rw [if_neg hin]
      exact ⟨rec, by rw [hagents]; exact hrec, hcap⟩
  · rw [verify_agent_c, hsnd, if_neg hout]
    exact ⟨rec, hrec, hcap⟩

/-- An exhausted identity stays exhausted across any call sequence. -/
theorem runCalls_preserves_exhausted (v : MCPVerifier) (cs : List VerifyCall)
    (a : String) (h : exhausted v a) : exhausted (runCalls v cs) a := by
  induction cs generalizing v with
  | nil => exact h
  | cons c cs ih => exact ih (verify_agent_c v c).2 (verify_preserves_exhausted v c a h)

/-- C4: once an identity's record has reached `MAX_AIRDROPS_PER_ADDRESS`
verifications, the denial is permanent: after any further call sequence the
record still sits at or above the cap (the count never decreases and never
resets), the rate limiter denies every request for that identity at any
time, and every such verification comes back ineligible with zero amounts,
even if all checks pass. -/
theorem C4_per_identity_cap (v : MCPVerifier) (addr : String)
    (rec : AgentRecord) (hrec : v.verified_agents addr = some rec)
    (hcap : MAX_AIRDROPS_PER_ADDRESS ≤ rec.verification_count) :
    ∀ cs : List VerifyCall, ∀ c : VerifyCall, c.agent_address = addr →
      (∃ rec', (runCalls v cs).verified_agents addr = some rec' ∧
        MAX_AIRDROPS_PER_ADDRESS ≤ rec'.verification_count) ∧
      (check_rate_limits (runCalls v cs) c.now addr).1 = false ∧
      (verify_agent_c (runCalls v cs) c).1.eligible_for_airdrop = false ∧
      (verify_agent_c (runCalls v cs) c).1.airdrop_amount_sats = 0 ∧
      (verify_agent_c (runCalls v cs) c).1.airdrop_amount_stx = 0 := by
  intro cs c hc
  subst hc
  obtain ⟨rec', hrec', hcap'⟩ :=
    runCalls_preserves_exhausted v cs c.agent_address ⟨rec, hrec, hcap⟩
  have hdeny := rate_cap_denies (runCalls v cs) c.now c.agent_address rec'
    hrec' hcap'
  have hres := verify_fst_denied (runCalls v cs) c.now c.agent_address
    c.github_repo c.mcp_endpoint c.bns_name c.balance_response c.github_ok
    c.endpoint_response c.bns_lookup hdeny
  exact ⟨⟨rec', hrec', hcap'⟩, hdeny, hres.1, hres.2.1, hres.2.2⟩

/-- C4 witness: `sampleTrace` drives a fresh ledger to `sampleAddr` having
exactly `MAX_AIRDROPS_PER_ADDRESS` verifications; the next fully-passing
call is denied by the rate limiter and ineligible. -/
theorem C4_per_identity_cap_witness :
    exhaustedVerifier.verified_agents sampleAddr = some record5 ∧
    MAX_AIRDROPS_PER_ADDRESS ≤ record5.verification_count ∧
    (check_rate_limits exhaustedVerifier (mkCall 500000).now sampleAddr).1 = false ∧
    (verify_agent_c exhaustedVerifier (mkCall 500000)).1.eligible_for_airdrop = false := by
  have h := C4_per_identity_cap exhaustedVerifier sampleAddr record5
    (by decide) (by decide) [] (mkCall 500000) (by decide)
  exact ⟨by decide, by decide, h.2.1, h.2.2.1⟩

/-- Boolean characterization of eligibility: format and stake pass, the
rate limiter allows, and the passed-checks condition holds. -/
theorem verify_fst_eligible_iff (v : MCPVerifier) (now : Nat) (addr : String)
    (repo ep bns : Option String) (bal : Option Nat) (gok : Bool)
    (er : Option Nat) (bl : Option String) :
    (verify_agent v now addr repo ep bns bal gok er bl).1.eligible_for_airdrop =
      ((is_valid_stacks_address addr
        && decide (v.min_stx_balance ≤ check_stx_balance bal))
       && ((check_rate_limits v now addr).1
        && decide (3 ≤ (["valid_address", "min_balance"] ++
            (optional_checks addr repo ep bns gok er bl).1).length ∧
          ("min_balance") ∈ ["valid_address", "min_balance"] ++
            (optional_checks addr repo ep bns gok er bl).1))) := by
  by_cases hfmt : is_valid_stacks_address addr
  · by_cases hbal : v.min_stx_balance ≤ check_stx_balance bal
    · cases hrl : (check_rate_limits v now addr).1 with
      | false => simp [verify_agent, hfmt, hbal, hrl, fail_result]
      | true => simp [verify_agent, hfmt, hbal, hrl]
    · simp [verify_agent, hfmt, hbal, fail_result]
  · simp [verify_agent, hfmt, fail_result]

/-- On the rate-allowed, non-terminal path the reported trust level is the
one computed from the ledger and the assembled checks. -/
theorem verify_fst_trust_allowed (v : MCPVerifier) (now : Nat) (addr : String)
    (repo ep bns : Option String) (bal : Option Nat) (gok : Bool)
    (er : Option Nat) (bl : Option String)
    (hfmt : is_valid_stacks_address addr = true)
    (hbal : v.min_stx_balance ≤ check_stx_balance bal)
    (hrl : (check_rate_limits v now addr).1 = true) :
    (verify_agent v now addr repo ep bns bal gok er bl).1.trust_level =
      calculate_trust_level v (["valid_address", "min_balance"] ++
        (optional_checks addr repo ep bns gok er bl).1) addr := by
  simp [verify_agent, hfmt, hbal, hrl]

/-- `record_verification` over an existing record: increment in place. -/
theorem record_verification_agents_some (v : MCPVerifier) (now : Nat)
    (addr : String) (repo bns : Option String) (tl : TrustLevel) (a : String)
    (ex : AgentRecord) (hex : v.verified_agents addr = some ex) :
    (record_verification v now addr repo bns tl).verified_agents a =
      if a = addr then
        some { ex with verification_count := ex.verification_count + 1
                       last_activity := now
                       trust_level := tl }
      else v.verified_agents a := by
  unfold record_verification
  rw [hex]

/-- `record_verification` with no existing record: fresh record, count 1. -/
theorem record_verification_agents_none (v : MCPVerifier) (now : Nat)
    (addr : String) (repo bns : Option String) (tl : TrustLevel) (a : String)
    (hex : v.verified_agents addr = none) :
    (record_verification v now addr repo bns tl).verified_agents a =
      if a = addr then some ⟨addr, repo, bns, tl, 0, 0, 1, now, now⟩
      else v.verified_agents a := by
  unfold record_verification
  rw [hex]

/-- One step of the existence invariant: after a call, an identity has a
record exactly when it had one before or this call targeted it and came
back eligible. -/
theorem verify_isSome_step (v : MCPVerifier) (c : VerifyCall) (a : String) :
    ((verify_agent_c v c).2.verified_agents a).isSome =
      ((v.verified_agents a).isSome ||
        ((c.agent_address == a) && (verify_agent_c v c).1.eligible_for_airdrop)) := by
  have hagents := (check_rate_limits_snd_agents v c.now c.agent_address).1
  have hsnd := verify_snd_eq v c.now c.agent_address c.github_repo
    c.mcp_endpoint c.bns_name c.balance_response c.github_ok
    c.endpoint_response c.bns_lookup
  have hel := verify_fst_eligible_iff v c.now c.agent_address c.github_repo
    c.mcp_endpoint c.bns_name c.balance_response c.github_ok
    c.endpoint_response c.bns_lookup
  rw [verify_agent_c]
  by_cases hout : (is_valid_stacks_address c.agent_address
      && decide (v.min_stx_balance ≤ check_stx_balance c.balance_response)) = true
  · by_cases hin : ((check_rate_limits v c.now c.agent_address).1
        && decide (3 ≤ (["valid_address", "min_balance"] ++
            (optional_checks c.agent_address c.github_repo c.mcp_endpoint
              c.bns_name c.github_ok c.endpoint_response c.bns_lookup).1).length ∧
          ("min_balance") ∈ ["valid_address", "min_balance"] ++
            (optional_checks c.agent_address c.github_repo c.mcp_endpoint
              c.bns_name c.github_ok c.endpoint_response c.bns_lookup).1)) = true
    · rw [hel, hout, hin]
      rw [hsnd, if_pos hout, if_pos hin]
      cases hv : v.verified_agents c.agent_address with
      | some ex =>
          have hex : (check_rate_limits v c.now c.agent_address).2.verified_agents
              c.agent_address = some ex := by rw [hagents]; exact hv
          rw [record_verification_agents_some _ _ _ _ _ _ a ex hex]
          by_cases hae : a = c.agent_address
          · subst hae
            simp [hv]
          · rw [if_neg hae, hagents]
            have hbe : (c.agent_address == a) = false := by
              simp [Ne.symm hae]
            simp [hbe]
      | none =>
          have hex : (check_rate_limits v c.now c.agent_address).2.verified_agents
              c.agent_address = none := by rw [hagents]; exact hv
          rw [record_verification_agents_none _ _ _ _ _ _ a hex]
          by_cases hae : a = c.agent_address
          · subst hae
            simp [hv]
          · rw [if_neg hae, hagents]
            have hbe : (c.agent_address == a) = false := by
              simp [Ne.symm hae]
            simp [hbe]
    · rw [hel, hout]
      have hinf : ((check_rate_limits v c.now c.agent_address).1
        && decide (3 ≤ (["valid_address", "min_balance"] ++
            (optional_checks c.agent_address c.github_repo c.mcp_endpoint
              c.bns_name c.github_ok c.endpoint_response c.bns_lookup).1).length ∧
          ("min_balance") ∈ ["valid_address", "min_balance"] ++
            (optional_checks c.agent_address c.github_repo c.mcp_endpoint
              c.bns_name c.github_ok c.endpoint_response c.bns_lookup).1)) = false :=
        Bool.not_eq_true _ ▸ eq_false_of_ne_true hin
      rw [hinf]
      rw [hsnd, if_pos hout, if_neg (by rw [hinf]; exact Bool.false_ne_true)]
      rw [hagents]
      simp
  · have houtf : (is_valid_stacks_address c.agent_address
        && decide (v.min_stx_balance ≤ check_stx_balance c.balance_response)) = false :=
      eq_false_of_ne_true hout
    rw [hel, houtf]
    rw [hsnd, if_neg (by rw [houtf]; exact Bool.false_ne_true)]
    simp

/-- Existence of a record after a call sequence: it was there before, or
some call of the sequence targeted the identity and came back eligible. -/
theorem runCalls_isSome (v : MCPVerifier) (cs : List VerifyCall) (a : String) :
    ((runCalls v cs).verified_agents a).isSome =
      ((v.verified_agents a).isSome || passedEligibility v cs a) := by
  induction cs generalizing v with
  | nil => simp [runCalls, passedEligibility]
  | cons c cs ih =>
      show ((runCalls (verify_agent_c v c).2 cs).verified_agents a).isSome = _
      rw [ih, verify_isSome_step]
      rw [passedEligibility]
      rw [Bool.or_assoc]

/-- Weakening the clock bound of the ledger invariant. -/
theorem recordsWF_mono (v : MCPVerifier) (t t' : Nat) (h : recordsWF v t)
    (hle : t ≤ t') : recordsWF v t' := by
  intro a rec hr
  obtain ⟨h1, h2, h3⟩ := h a rec hr
  exact ⟨h1, h2, le_trans h3 hle⟩

/-- The ledger invariant only depends on the ledger map. -/
theorem recordsWF_agents_eq (v w : MCPVerifier) (t : Nat)
    (h : v.verified_agents = w.verified_agents) (hw : recordsWF w t) :
    recordsWF v t := by
  intro a rec hr
  exact hw a rec (by rw [← h]; exact hr)

/-- One step preserves the ledger invariant when the clock moves forward. -/
theorem verify_recordsWF_step (v : MCPVerifier) (c : VerifyCall) (t : Nat)
    (hwf : recordsWF v t) (ht : t ≤ c.now) :
    recordsWF (verify_agent_c v c).2 c.now := by
  have hagents := (check_rate_limits_snd_agents v c.now c.agent_address).1
  have hsnd := verify_snd_eq v c.now c.agent_address c.github_repo
    c.mcp_endpoint c.bns_name c.balance_response c.github_ok
    c.endpoint_response c.bns_lookup
  rw [verify_agent_c, hsnd]
  by_cases hout : (is_valid_stacks_address c.agent_address
      && decide (v.min_stx_balance ≤ check_stx_balance c.balance_response)) = true
  · rw [if_pos hout]
    by_cases hin : ((check_rate_limits v c.now c.agent_address).1
        && decide (3 ≤ (["valid_address", "min_balance"] ++
            (optional_checks c.agent_address c.github_repo c.mcp_endpoint
              c.bns_name c.github_ok c.endpoint_response c.bns_lookup).1).length ∧
          ("min_balance") ∈ ["valid_address", "min_balance"] ++
            (optional_checks c.agent_address c.github_repo c.mcp_endpoint
              c.bns_name c.github_ok c.endpoint_response c.bns_lookup).1)) = true
    · rw [if_pos hin]
      intro a rec hr
      cases hv : v.verified_agents c.agent_address with
      | some ex =>
          have hex : (check_rate_limits v c.now c.agent_address).2.verified_agents
              c.agent_address = some ex := by rw [hagents]; exact hv
          rw [record_verification_agents_some _ _ _ _ _ _ a ex hex] at hr
          by_cases hae : a = c.agent_address
          · rw [if_pos hae] at hr
            obtain ⟨h1, h2, h3⟩ := hwf c.agent_address ex hv
            injection hr with hr
            subst hr
            refine ⟨?_, ?_, ?_⟩
            · show 1 ≤ ex.verification_count + 1
              omega
            · show ex.first_seen ≤ c.now
              omega
            · show c.now ≤ c.now
              exact le_refl _
          · rw [if_neg hae, hagents] at hr
            obtain ⟨h1, h2, h3⟩ := hwf a rec hr
            exact ⟨h1, h2, le_trans h3 ht⟩
      | none =>
          have hex : (check_rate_limits v c.now c.agent_address).2.verified_agents
              c.agent_address = none := by rw [hagents]; exact hv
          rw [record_verification_agents_none _ _ _ _ _ _ a hex] at hr
          by_cases hae : a = c.agent_address
          · rw [if_pos hae] at hr
            injection hr with hr
            subst hr
            exact ⟨le_refl _, le_refl _, le_refl _⟩
          · rw [if_neg hae, hagents] at hr
            obtain ⟨h1, h2, h3⟩ := hwf a rec hr
            exact ⟨h1, h2, le_trans h3 ht⟩
    · rw [if_neg hin]
      exact recordsWF_agents_eq _ v c.now hagents (recordsWF_mono v t c.now hwf ht)
  · rw [if_neg hout]
    exact recordsWF_mono v t c.now hwf ht

/-- The ledger invariant holds after any sequence of calls with
nondecreasing clock readings. -/
theorem runCalls_recordsWF (v : MCPVerifier) (t : Nat) (cs : List VerifyCall)
    (h : recordsWF v t) (hch : timesChain t cs = true) :
    ∃ t', recordsWF (runCalls v cs) t' := by
  induction cs generalizing v t with
  | nil => exact ⟨t, h⟩
  | cons c cs ih =>
      rw [timesChain, Bool.and_eq_true] at hch
      exact ih (verify_agent_c v c).2 c.now
        (verify_recordsWF_step v c t h (of_decide_eq_true hch.1)) hch.2

/-- One step preserves positivity of all verification counts. -/
theorem verify_countWF_step (v : MCPVerifier) (c : VerifyCall)
    (h : countWF v) : countWF (verify_agent_c v c).2 := by
  have hagents := (check_rate_limits_snd_agents v c.now c.agent_address).1
  have hsnd := verify_snd_eq v c.now c.agent_address c.github_repo
    c.mcp_endpoint c.bns_name c.balance_response c.github_ok
    c.endpoint_response c.bns_lookup
  rw [verify_agent_c, hsnd]
  by_cases hout : (is_valid_stacks_address c.agent_address
      && decide (v.min_stx_balance ≤ check_stx_balance c.balance_response)) = true
  · rw [if_pos hout]
    by_cases hin : ((check_rate_limits v c.now c.agent_address).1
        && decide (3 ≤ (["valid_address", "min_balance"] ++
            (optional_checks c.agent_address c.github_repo c.mcp_endpoint
              c.bns_name c.github_ok c.endpoint_response c.bns_lookup).1).length ∧
          ("min_balance") ∈ ["valid_address", "min_balance"] ++
            (optional_checks c.agent_address c.github_repo c.mcp_endpoint
              c.bns_name c.github_ok c.endpoint_response c.bns_lookup).1)) = true
    · rw [if_pos hin]
      intro a rec hr
      cases hv : v.verified_agents c.agent_address with
      | some ex =>
          have hex : (check_rate_limits v c.now c.agent_address).2.verified_agents
              c.agent_address = some ex := by rw [hagents]; exact hv
          rw [record_verification_agents_some _ _ _ _ _ _ a ex hex] at hr
          by_cases hae : a = c.agent_address
          · rw [if_pos hae] at hr
            injection hr with hr
            subst hr
            show 1 ≤ ex.verification_count + 1
            omega
          · rw [if_neg hae, hagents] at hr
            exact h a rec hr
      | none =>
          have hex : (check_rate_limits v c.now c.agent_address).2.verified_agents
              c.agent_address = none := by rw [hagents]; exact hv
          rw [record_verification_agents_none _ _ _ _ _ _ a hex] at hr
          by_cases hae : a = c.agent_address
          · rw [if_pos hae] at hr
            injection hr with hr
            subst hr
            exact le_refl _
          · rw [if_neg hae, hagents] at hr
            exact h a rec hr
    · rw [if_neg hin]
      intro a rec hr
      rw [hagents] at hr
      exact h a rec hr
  · rw [if_neg hout]
    exact h

/-- All verification counts stay positive across any call sequence. -/
theorem runCalls_countWF (v : MCPVerifier) (cs : List VerifyCall)
    (h : countWF v) : countWF (runCalls v cs) := by
  induction cs generalizing v with
  | nil => exact h
  | cons c cs ih => exact ih (verify_agent_c v c).2 (verify_countWF_step v c h)

/-- The ledger commit happens exactly on eligible results: an ineligible
request leaves the ledger map untouched, while an eligible one was
rate-allowed and creates the identity's record with count 1 or increments
it in place, stamping `last_activity` with the call time and the cached
trust level with the reported one; other identities are untouched. -/
theorem verify_commit (v : MCPVerifier) (c : VerifyCall) :
    ((verify_agent_c v c).1.eligible_for_airdrop = false →
      (verify_agent_c v c).2.verified_agents = v.verified_agents) ∧
    ((verify_agent_c v c).1.eligible_for_airdrop = true →
      (check_rate_limits v c.now c.agent_address).1 = true ∧
      (∀ x, x ≠ c.agent_address →
        (verify_agent_c v c).2.verified_agents x = v.verified_agents x) ∧
      (∀ ex, v.verified_agents c.agent_address = some ex →
        (verify_agent_c v c).2.verified_agents c.agent_address =
          some { ex with verification_count := ex.verification_count + 1
                         last_activity := c.now
                         trust_level := (verify_agent_c v c).1.trust_level }) ∧
      (v.verified_agents c.agent_address = none →
        (verify_agent_c v c).2.verified_agents c.agent_address =
          some ⟨c.agent_address, c.github_repo, c.bns_name,
            (verify_agent_c v c).1.trust_level, 0, 0, 1, c.now, c.now⟩)) := by
  have hagents := (check_rate_limits_snd_agents v c.now c.agent_address).1
  have hsnd := verify_snd_eq v c.now c.agent_address c.github_repo
    c.mcp_endpoint c.bns_name c.balance_response c.github_ok
    c.endpoint_response c.bns_lookup
  have hel := verify_fst_eligible_iff v c.now c.agent_address c.github_repo
    c.mcp_endpoint c.bns_name c.balance_response c.github_ok
    c.endpoint_response c.bns_lookup
  simp only [verify_agent_c]
  by_cases hout : (is_valid_stacks_address c.agent_address
      && decide (v.min_stx_balance ≤ check_stx_balance c.balance_response)) = true
  · by_cases hin : ((check_rate_limits v c.now c.agent_address).1
        && decide (3 ≤ (["valid_address", "min_balance"] ++
            (optional_checks c.agent_address c.github_repo c.mcp_endpoint
              c.bns_name c.github_ok c.endpoint_response c.bns_lookup).1).length ∧
          ("min_balance") ∈ ["valid_address", "min_balance"] ++
            (optional_checks c.agent_address c.github_repo c.mcp_endpoint
              c.bns_name c.github_ok c.endpoint_response c.bns_lookup).1)) = true
    · have hout2 := hout
      rw [Bool.and_eq_true] at hout2
      have hin2 := hin
      rw [Bool.and_eq_true] at hin2
      have hfmt : is_valid_stacks_address c.agent_address = true := hout2.1
      have hbal : v.min_stx_balance ≤ check_stx_balance c.balance_response :=
        of_decide_eq_true hout2.2
      have hrl : (check_rate_limits v c.now c.agent_address).1 = true := hin2.1
      have htl := verify_fst_trust_allowed v c.now c.agent_address
        c.github_repo c.mcp_endpoint c.bns_name c.balance_response
        c.github_ok c.endpoint_response c.bns_lookup hfmt hbal hrl
      constructor
      · intro hfalse
        rw [hel, hout, hin] at hfalse
        simp at hfalse
      · intro _
        refine ⟨hrl, ?_, ?_, ?_⟩
        · intro x hx
          rw [hsnd, if_pos hout, if_pos hin]
          cases hv : v.verified_agents c.agent_address with
          | some ex =>
              have hex : (check_rate_limits v c.now c.agent_address).2.verified_agents
                  c.agent_address = some ex := by rw [hagents]; exact hv
              rw [record_verification_agents_some _ _ _ _ _ _ x ex hex,
                if_neg hx, hagents]
          | none =>
              have hex : (check_rate_limits v c.now c.agent_address).2.verified_agents
                  c.agent_address = none := by rw [hagents]; exact hv
              rw [record_verification_agents_none _ _ _ _ _ _ x hex,
                if_neg hx, hagents]
        · intro ex hex0
          rw [htl, hsnd, if_pos hout, if_pos hin]
          have hex : (check_rate_limits v c.now c.agent_address).2.verified_agents
              c.agent_address = some ex := by rw [hagents]; exact hex0
          rw [record_verification_agents_some _ _ _ _ _ _ c.agent_address ex hex,
            if_pos rfl]
        · intro hex0
          rw [htl, hsnd, if_pos hout, if_pos hin]
          have hex : (check_rate_limits v c.now c.agent_address).2.verified_agents
              c.agent_address = none := by rw [hagents]; exact hex0
          rw [record_verification_agents_none _ _ _ _ _ _ c.agent_address hex,
            if_pos rfl]
    · constructor
      · intro _
        rw [hsnd, if_pos hout, if_neg hin]
        exact hagents
      · intro htrue
        rw [hel, Bool.and_eq_true] at htrue
        exact absurd htrue.2 hin
  · constructor
    · intro _
      rw [hsnd, if_neg hout]
    · intro htrue
      rw [hel, Bool.and_eq_true] at htrue
      exact absurd htrue.1 hout

/-- C6: ledger invariants over any run from an empty ledger.  A record for
an identity exists iff some call for it came back eligible; every record
has `verification_count ≥ 1`; with nondecreasing clock readings every
record satisfies `first_seen ≤ last_activity`; and (for every state and
call) the commit happens exactly on eligible requests — creation with
count 1, or increment with `last_activity` and the cached trust level
updated. -/
theorem C6_ledger_invariants (m t0 : Nat) (cs : List VerifyCall)
    (a : String) :
    (((runCalls (MCPVerifier.init m t0) cs).verified_agents a).isSome =
      passedEligibility (MCPVerifier.init m t0) cs a) ∧
    (∀ rec, (runCalls (MCPVerifier.init m t0) cs).verified_agents a = some rec →
      1 ≤ rec.verification_count) ∧
    (timesChain t0 cs = true →
      ∀ rec, (runCalls (MCPVerifier.init m t0) cs).verified_agents a = some rec →
        rec.first_seen ≤ rec.last_activity) ∧
    (∀ (w : MCPVerifier) (c : VerifyCall),
      ((verify_agent_c w c).1.eligible_for_airdrop = false →
        (verify_agent_c w c).2.verified_agents = w.verified_agents) ∧
      ((verify_agent_c w c).1.eligible_for_airdrop = true →
        (∀ x, x ≠ c.agent_address →
          (verify_agent_c w c).2.verified_agents x = w.verified_agents x) ∧
        (∀ ex, w.verified_agents c.agent_address = some ex →
          (verify_agent_c w c).2.verified_agents c.agent_address =
            some { ex with verification_count := ex.verification_count + 1
                           last_activity := c.now
                           trust_level := (verify_agent_c w c).1.trust_level }) ∧
        (w.verified_agents c.agent_address = none →
          (verify_agent_c w c).2.verified_agents c.agent_address =
            some ⟨c.agent_address, c.github_repo, c.bns_name,
              (verify_agent_c w c).1.trust_level, 0, 0, 1, c.now, c.now⟩))) := by
  refine ⟨?_, ?_, ?_, ?_⟩
  · rw [runCalls_isSome]
    simp [MCPVerifier.init]
  · intro rec hrec
    refine runCalls_countWF (MCPVerifier.init m t0) cs ?_ a rec hrec
    intro x r hx
    simp [MCPVerifier.init] at hx
  · intro hch rec hrec
    have hwf0 : recordsWF (MCPVerifier.init m t0) t0 := by
      intro x r hx
      simp [MCPVerifier.init] at hx
    obtain ⟨t', hwf⟩ := runCalls_recordsWF (MCPVerifier.init m t0) t0 cs hwf0 hch
    exact (hwf a rec hrec).2.1
  · intro w c
    have h := verify_commit w c
    exact ⟨h.1, fun he => ⟨(h.2 he).2.1, (h.2 he).2.2.1, (h.2 he).2.2.2⟩⟩

/-- C6 witness: the sample trace has nondecreasing times; existence of the
record for `sampleAddr` after the trace matches `passedEligibility`. -/
theorem C6_ledger_invariants_witness :
    timesChain 0 sampleTrace = true ∧
    ((runCalls (MCPVerifier.init 100000 0) sampleTrace).verified_agents
        sampleAddr).isSome =
      passedEligibility (MCPVerifier.init 100000 0) sampleTrace sampleAddr :=
  ⟨by decide, (C6_ledger_invariants 100000 0 sampleTrace sampleAddr).1⟩
